import Mathlib

/-
Verification of the RangeBounds-overlaps library (src/main.rs).

The library defines a Bound abstraction (Included / Excluded / Unbounded),
a trait RangeBounds exposing start_bound and end_bound, a membership test
contains, and an overlap test overlaps.  Many arms of overlaps are left as
todo macros in the source; we model them as none of an Option Bool, so
that overlaps returning some b models a normal return of b and none models
reaching an unimplemented arm.

Comparisons in the source go through the element type's PartialOrd
instance, whose core method returns an optional ordering; le and lt are
derived from it exactly as in Rust.  We model this with a record holding
the optional-comparison function.
-/

namespace RB

/-- Bound, the three-way descriptor of one side of a range, as in the
source: Included endpoint, Excluded endpoint, or Unbounded. -/
inductive Bound (α : Type) where
  | Included : α → Bound α
  | Excluded : α → Bound α
  | Unbounded : Bound α
deriving DecidableEq, Repr

/-- A range value, modelled by the two queries of the RangeBounds trait:
start_bound and end_bound.  The tuple impl for a pair of bounds shows every
pair is realisable, so this record is fully general. -/
structure RangeBounds (α : Type) where
  start_bound : Bound α
  end_bound : Bound α
deriving DecidableEq, Repr

/-- Model of a Rust PartialOrd instance on a single element type: the
optional-comparison function partial_cmp.  It may return none on
incomparable pairs (a non-total order, as with floating point NaN). -/
structure PartialOrd (α : Type) where
  pcmp : α → α → Option Ordering

/-- Rust derives le from partial_cmp: true exactly on Some(Less) and
Some(Equal). -/
def PartialOrd.le (p : PartialOrd α) (a b : α) : Bool :=
  match p.pcmp a b with
  | some Ordering.lt => true
  | some Ordering.eq => true
  | _ => false

/-- Rust derives lt from partial_cmp: true exactly on Some(Less). -/
def PartialOrd.lt (p : PartialOrd α) (a b : α) : Bool :=
  match p.pcmp a b with
  | some Ordering.lt => true
  | _ => false

/-- Membership test, transcribed from contains in the source: the start
side check and the end side check, combined with the boolean and. -/
def contains (p : PartialOrd α) (self : RangeBounds α) (item : α) : Bool :=
  (match self.start_bound with
    | Bound.Included start => p.le start item
    | Bound.Excluded start => p.lt start item
    | Bound.Unbounded => true) &&
  (match self.end_bound with
    | Bound.Included e => p.le item e
    | Bound.Excluded e => p.lt item e
    | Bound.Unbounded => true)

/-- Overlap test, transcribed arm by arm from overlaps in the source.
Arms that are todo macros in the source (reached arms panic at run time)
are modelled as none; a normal boolean return b is modelled as some b. -/
def overlaps (p : PartialOrd α) (self other : RangeBounds α) : Option Bool :=
  match self.start_bound, self.end_bound, other.start_bound, other.end_bound with
  | Bound.Unbounded, Bound.Unbounded, _, _ => some true
  | _, _, Bound.Unbounded, Bound.Unbounded => some true
  | Bound.Unbounded, _, Bound.Unbounded, _ => some true
  | _, Bound.Unbounded, _, Bound.Unbounded => some true
  | Bound.Included s, Bound.Included e, _, _ =>
      some (contains p other s || contains p other e)
  | _, _, Bound.Included s, Bound.Included e =>
      some (contains p self s || contains p self e)
  | Bound.Included s, _, Bound.Included o, _ =>
      some (contains p self o || contains p other s)
  | _, Bound.Included s, _, Bound.Included o =>
      some (contains p self o || contains p other s)
  | Bound.Included _, Bound.Excluded _, Bound.Excluded _, Bound.Included _ => none
  | Bound.Included _, Bound.Excluded _, Bound.Excluded _, Bound.Excluded _ => none
  | Bound.Included _, Bound.Excluded _, Bound.Excluded _, Bound.Unbounded => none
  | Bound.Included _, Bound.Excluded _, Bound.Unbounded, Bound.Included _ => none
  | Bound.Included _, Bound.Excluded _, Bound.Unbounded, Bound.Excluded _ => none
  | Bound.Included _, Bound.Unbounded, Bound.Excluded _, Bound.Included _ => none
  | Bound.Included _, Bound.Unbounded, Bound.Excluded _, Bound.Excluded _ => none
  | Bound.Included _, Bound.Unbounded, Bound.Unbounded, Bound.Included _ => none
  | Bound.Included _, Bound.Unbounded, Bound.Unbounded, Bound.Excluded _ => none
  | Bound.Excluded _, Bound.Included _, Bound.Included _, Bound.Excluded _ => none
  | Bound.Excluded _, Bound.Included _, Bound.Included _, Bound.Unbounded => none
  | Bound.Excluded _, Bound.Included _, Bound.Excluded _, Bound.Excluded _ => none
  | Bound.Excluded _, Bound.Included _, Bound.Excluded _, Bound.Unbounded => none
  | Bound.Excluded _, Bound.Included _, Bound.Unbounded, Bound.Excluded _ => none
  | Bound.Excluded _, Bound.Excluded _, Bound.Included _, Bound.Excluded _ => none
  | Bound.Excluded _, Bound.Excluded _, Bound.Included _, Bound.Unbounded => none
  | Bound.Excluded _, Bound.Excluded _, Bound.Excluded _, Bound.Included _ => none
  | Bound.Excluded _, Bound.Excluded _, Bound.Excluded _, Bound.Excluded _ => none
  | Bound.Excluded _, Bound.Excluded _, Bound.Excluded _, Bound.Unbounded => none
  | Bound.Excluded _, Bound.Excluded _, Bound.Unbounded, Bound.Included _ => none
  | Bound.Excluded _, Bound.Excluded _, Bound.Unbounded, Bound.Excluded _ => none
  | Bound.Excluded _, Bound.Unbounded, Bound.Included _, Bound.Excluded _ => none
  | Bound.Excluded _, Bound.Unbounded, Bound.Excluded _, Bound.Included _ => none
  | Bound.Excluded _, Bound.Unbounded, Bound.Excluded _, Bound.Excluded _ => none
  | Bound.Excluded _, Bound.Unbounded, Bound.Unbounded, Bound.Included _ => none
  | Bound.Excluded _, Bound.Unbounded, Bound.Unbounded, Bound.Excluded _ => none
  | Bound.Unbounded, Bound.Included _, Bound.Included _, Bound.Excluded _ => none
  | Bound.Unbounded, Bound.Included _, Bound.Included _, Bound.Unbounded => none
  | Bound.Unbounded, Bound.Included _, Bound.Excluded _, Bound.Excluded _ => none
  | Bound.Unbounded, Bound.Included _, Bound.Excluded _, Bound.Unbounded => none
  | Bound.Unbounded, Bound.Excluded _, Bound.Included _, Bound.Excluded _ => none
  | Bound.Unbounded, Bound.Excluded _, Bound.Included _, Bound.Unbounded => none
  | Bound.Unbounded, Bound.Excluded _, Bound.Excluded _, Bound.Included _ => none
  | Bound.Unbounded, Bound.Excluded _, Bound.Excluded _, Bound.Excluded _ => none
  | Bound.Unbounded, Bound.Excluded _, Bound.Excluded _, Bound.Unbounded => none

/-- The fully unbounded range shape (impl RangeBounds for RangeFull). -/
def rangeFull : RangeBounds α := ⟨Bound.Unbounded, Bound.Unbounded⟩

/-- The from-x shape (impl RangeBounds for RangeFrom). -/
def rangeFrom (s : α) : RangeBounds α := ⟨Bound.Included s, Bound.Unbounded⟩

/-- The up-to-x exclusive shape (impl RangeBounds for RangeTo). -/
def rangeTo (e : α) : RangeBounds α := ⟨Bound.Unbounded, Bound.Excluded e⟩

/-- The half-open shape a..b (impl RangeBounds for Range). -/
def range (s e : α) : RangeBounds α := ⟨Bound.Included s, Bound.Excluded e⟩

/-- The inclusive shape a..=b (impl RangeBounds for RangeInclusive,
delegating to the standard impl: Included start, Included end). -/
def rangeInclusive (s e : α) : RangeBounds α :=
  ⟨Bound.Included s, Bound.Included e⟩

/-- The up-to-x inclusive shape (impl RangeBounds for RangeToInclusive). -/
def rangeToInclusive (e : α) : RangeBounds α :=
  ⟨Bound.Unbounded, Bound.Included e⟩

/-- The PartialOrd instance of the integers: a total order, every
comparison returns some ordering.  This is the instance the check harness
in main uses (integer endpoints). -/
def intOrd : PartialOrd ℤ :=
  ⟨fun a b =>
    some (if a < b then Ordering.lt else if a = b then Ordering.eq else Ordering.gt)⟩

/-- A NaN-bearing element type: none plays the role of the NaN-like value,
incomparable with everything (including itself); some n compares as the
integer n.  Models the non-total order of floating point. -/
def nanOrd : PartialOrd (Option ℤ) :=
  ⟨fun a b =>
    match a, b with
    | some a, some b =>
        some (if a < b then Ordering.lt else if a = b then Ordering.eq else Ordering.gt)
    | _, _ => none⟩

/-- Spec-side formulation of the start-side membership check of section 4.2:
Included start passes iff start is at most the item, Excluded start passes
iff start is strictly below the item, Unbounded always passes. -/
def startSidePasses (p : PartialOrd α) (b : Bound α) (item : α) : Bool :=
  match b with
  | Bound.Included s => p.le s item
  | Bound.Excluded s => p.lt s item
  | Bound.Unbounded => true

/-- Spec-side formulation of the end-side membership check of section 4.2:
Included end passes iff the item is at most the end, Excluded end passes
iff the item is strictly below the end, Unbounded always passes. -/
def endSidePasses (p : PartialOrd α) (b : Bound α) (item : α) : Bool :=
  match b with
  | Bound.Included e => p.le item e
  | Bound.Excluded e => p.lt item e
  | Bound.Unbounded => true

/-- Kind query: is this bound Unbounded? -/
def Bound.isUnbounded : Bound α → Bool
  | Bound.Unbounded => true
  | _ => false

/-- Kind query: is this bound an Included endpoint? -/
def Bound.isIncluded : Bound α → Bool
  | Bound.Included _ => true
  | _ => false

/-- The bound-kind condition characterising the combinations on which
overlaps returns instead of reaching a todo arm. -/
def overlapsReturnKinds (a b : RangeBounds α) : Bool :=
  (a.start_bound.isUnbounded && a.end_bound.isUnbounded) ||
  (b.start_bound.isUnbounded && b.end_bound.isUnbounded) ||
  (a.start_bound.isUnbounded && b.start_bound.isUnbounded) ||
  (a.end_bound.isUnbounded && b.end_bound.isUnbounded) ||
  (a.start_bound.isIncluded && a.end_bound.isIncluded) ||
  (b.start_bound.isIncluded && b.end_bound.isIncluded) ||
  (a.start_bound.isIncluded && b.start_bound.isIncluded) ||
  (a.end_bound.isIncluded && b.end_bound.isIncluded)

/-- Does this bound of the NaN-bearing type carry the NaN-like value? -/
def boundIsNaN : Bound (Option ℤ) → Bool
  | Bound.Included none => true
  | Bound.Excluded none => true
  | _ => false

theorem intOrd_le (a b : ℤ) : intOrd.le a b = decide (a ≤ b) := by
  unfold intOrd PartialOrd.le
  rcases lt_trichotomy a b with h | h | h
  · simp [h, le_of_lt h]
  · simp [h]
  · simp [not_lt_of_gt h, ne_of_gt h, not_le_of_gt h]

theorem intOrd_lt (a b : ℤ) : intOrd.lt a b = decide (a < b) := by
  unfold intOrd PartialOrd.lt
  rcases lt_trichotomy a b with h | h | h
  · simp [h]
  · simp [h]
  · simp [not_lt_of_gt h, ne_of_gt h]

theorem nanOrd_le_none_left (b : Option ℤ) : nanOrd.le none b = false := by
  cases b <;> rfl

theorem nanOrd_le_none_right (a : Option ℤ) : nanOrd.le a none = false := by
  cases a <;> rfl

theorem nanOrd_lt_none_left (b : Option ℤ) : nanOrd.lt none b = false := by
  cases b <;> rfl

theorem nanOrd_lt_none_right (a : Option ℤ) : nanOrd.lt a none = false := by
  cases a <;> rfl

/-- C1: the claim states that overlaps resolves every one of the 81
bound-kind combinations to a concrete boolean and is total.  The code is
not total: on the all-Excluded combination, exercised by the first check
of the main harness, overlaps reaches a todo arm (modelled as none) and
panics instead of returning a boolean. -/
theorem C1_overlaps_reaches_todo :
    overlaps intOrd ⟨Bound.Excluded 0, Bound.Excluded 3⟩
      ⟨Bound.Excluded 1, Bound.Excluded 3⟩ = none := by
  rfl

/-- C2: the claim states that overlaps returns true exactly when the two
point sets share a point.  The code violates this: the ranges from 0 to 10
inclusive and from 2 to 3 inclusive share the point 2 (both contains calls
return true), yet overlaps returns false, because the Included-Included
arm only tests the endpoints of self against other and never the
endpoints of other against self. -/
theorem C2_overlaps_misses_common_point :
    overlaps intOrd ⟨Bound.Included 0, Bound.Included 10⟩
      ⟨Bound.Included 2, Bound.Included 3⟩ = some false ∧
    contains intOrd ⟨Bound.Included 0, Bound.Included 10⟩ 2 = true ∧
    contains intOrd ⟨Bound.Included 2, Bound.Included 3⟩ 2 = true := by
  refine ⟨rfl, ?_, ?_⟩ <;> decide

/-- C3: the claim states that overlaps is symmetric.  The code violates
it: with A the range from 0 to 10 inclusive and B the range from 2 to 3
inclusive, A overlaps B returns false while B overlaps A returns true. -/
theorem C3_overlaps_asymmetric :
    overlaps intOrd ⟨Bound.Included 0, Bound.Included 10⟩
      ⟨Bound.Included 2, Bound.Included 3⟩ = some false ∧
    overlaps intOrd ⟨Bound.Included 2, Bound.Included 3⟩
      ⟨Bound.Included 0, Bound.Included 10⟩ = some true := by
  constructor <;> decide

/-- C4: the claim states the three boundary-exactness results true, false,
false for the three concrete check cases of main.  The code decides none
of them: all three pairs fall into todo arms (modelled as none), so each
check panics instead of producing the claimed boolean. -/
theorem C4_check_cases_reach_todo :
    overlaps intOrd ⟨Bound.Excluded 0, Bound.Excluded 3⟩
      ⟨Bound.Excluded 1, Bound.Excluded 3⟩ = none ∧
    overlaps intOrd ⟨Bound.Excluded 0, Bound.Excluded 3⟩
      ⟨Bound.Excluded 3, Bound.Excluded 4⟩ = none ∧
    overlaps intOrd ⟨Bound.Excluded 0, Bound.Included 3⟩
      ⟨Bound.Excluded 3, Bound.Excluded 5⟩ = none := by
  refine ⟨rfl, rfl, rfl⟩

/-- C5: contains returns exactly the conjunction of the two independent
side checks-- Included start passes iff start is at most the item,
Excluded start iff start is strictly below it, Unbounded always; dually on
the end side with the item on the left. -/
theorem C5_contains_is_conjunction_of_sides (p : PartialOrd α)
    (r : RangeBounds α) (item : α) :
    contains p r item =
      (startSidePasses p r.start_bound item && endSidePasses p r.end_bound item) := by
  obtain ⟨s, e⟩ := r
  cases s <;> cases e <;> rfl

/-- C6: the fully unbounded range overlaps every range, in both argument
orders, whatever the other range's bound kinds and endpoint values. -/
theorem C6_unbounded_absorption (p : PartialOrd α) (b : RangeBounds α) :
    overlaps p rangeFull b = some true ∧ overlaps p b rangeFull = some true := by
  obtain ⟨s, e⟩ := b
  cases s <;> cases e <;> exact ⟨rfl, rfl⟩

/-- C7 counterexample: the claim asserts contains of the left endpoint of
the half-open range a..b is true for all values a and b, but at a = b = 0
the range 0..0 is empty and contains 0 is false. -/
theorem C7_counterexample_empty_range :
    contains intOrd (range (0 : ℤ) 0) 0 = false := by
  decide

/-- C7 amended: for a strictly below b, the half-open range a..b contains
a; for all a and b it does not contain b; and for a at most b, the
inclusive range a..=b contains b. -/
theorem C7_boundary_laws (a b : ℤ) :
    (a < b → contains intOrd (range a b) a = true) ∧
    contains intOrd (range a b) b = false ∧
    (a ≤ b → contains intOrd (rangeInclusive a b) b = true) := by
  refine ⟨fun h => ?_, ?_, fun h => ?_⟩
  · simp [contains, range, intOrd_le, intOrd_lt, h]
  · simp [contains, range, intOrd_le, intOrd_lt]
  · simp [contains, rangeInclusive, intOrd_le, intOrd_lt, h]

theorem C7_boundary_laws_witness :
    ((0 : ℤ) < 1 ∧ (0 : ℤ) ≤ 1) ∧
    (contains intOrd (range (0 : ℤ) 1) 0 = true ∧
     contains intOrd (range (0 : ℤ) 1) 1 = false ∧
     contains intOrd (rangeInclusive (0 : ℤ) 1) 1 = true) :=
  ⟨⟨by decide, by decide⟩,
   ⟨(C7_boundary_laws 0 1).1 (by decide), (C7_boundary_laws 0 1).2.1,
    (C7_boundary_laws 0 1).2.2 (by decide)⟩⟩

/-- C8: on the NaN-bearing order, whenever a comparison made by contains
could involve the incomparable NaN-like value-- a non-Unbounded bound
carrying NaN, or a NaN item with at least one non-Unbounded bound--
contains returns false; no error is raised (contains is a total Bool). -/
theorem C8_nan_comparisons_false (r : RangeBounds (Option ℤ)) (item : Option ℤ)
    (h : boundIsNaN r.start_bound = true ∨ boundIsNaN r.end_bound = true ∨
      (item = none ∧
       (r.start_bound.isUnbounded = false ∨ r.end_bound.isUnbounded = false))) :
    contains nanOrd r item = false := by
  obtain ⟨s, e⟩ := r
  rcases h with h | h | ⟨hi, hb⟩
  · cases s with
    | Included v =>
        cases v with
        | none => simp [contains, nanOrd_le_none_left]
        | some x => simp [boundIsNaN] at h
    | Excluded v =>
        cases v with
        | none => simp [contains, nanOrd_lt_none_left]
        | some x => simp [boundIsNaN] at h
    | Unbounded => simp [boundIsNaN] at h
  · cases e with
    | Included v =>
        cases v with
        | none => simp [contains, nanOrd_le_none_right]
        | some x => simp [boundIsNaN] at h
    | Excluded v =>
        cases v with
        | none => simp [contains, nanOrd_lt_none_right]
        | some x => simp [boundIsNaN] at h
    | Unbounded => simp [boundIsNaN] at h
  · subst hi
    rcases hb with hb | hb
    · cases s with
      | Included v => simp [contains, nanOrd_le_none_right]
      | Excluded v => simp [contains, nanOrd_lt_none_right]
      | Unbounded => simp [Bound.isUnbounded] at hb
    · cases e with
      | Included v => simp [contains, nanOrd_le_none_left]
      | Excluded v => simp [contains, nanOrd_lt_none_left]
      | Unbounded => simp [Bound.isUnbounded] at hb

theorem C8_nan_comparisons_false_witness :
    (boundIsNaN (Bound.Included (none : Option ℤ)) = true ∨
     boundIsNaN (Bound.Unbounded : Bound (Option ℤ)) = true ∨
     ((some 0 : Option ℤ) = none ∧
      ((Bound.Included (none : Option ℤ)).isUnbounded = false ∨
       (Bound.Unbounded : Bound (Option ℤ)).isUnbounded = false))) ∧
    contains nanOrd ⟨Bound.Included none, Bound.Unbounded⟩ (some 0) = false :=
  ⟨Or.inl rfl,
   C8_nan_comparisons_false ⟨Bound.Included none, Bound.Unbounded⟩ (some 0)
     (Or.inl rfl)⟩

/-- C9: overlaps returns a boolean exactly on the bound-kind combinations
where one of the eight kind conditions holds (a side fully Unbounded, both
starts or both ends Unbounded, a side fully Included, both starts or both
ends Included); on every other combination it reaches a todo arm; and the
set of returning combinations is closed under swapping the arguments. -/
theorem C9_overlaps_domain (p : PartialOrd α) (a b : RangeBounds α) :
    ((overlaps p a b).isSome = overlapsReturnKinds a b) ∧
    ((overlaps p a b).isSome = (overlaps p b a).isSome) := by
  obtain ⟨ss, se⟩ := a
  obtain ⟨os, oe⟩ := b
  cases ss <;> cases se <;> cases os <;> cases oe <;>
    simp [overlaps, overlapsReturnKinds, Bound.isUnbounded, Bound.isIncluded]

/-- C10: the fully unbounded range contains every item of every element
type under every comparison model, including an item incomparable with all
values, since no comparison is performed at all. -/
theorem C10_full_contains_everything (p : PartialOrd α) (item : α) :
    contains p rangeFull item = true := by
  rfl

end RB
